import Mathlib

/-!
Verification of the lookup logic of the Logeion MCP server (src/logeion.py).

The embedding models the module-level state of `logeion.py` (the SQLite
database behind `DATABASE_PATH`, the spaCy model `nlp`, and the failure
behaviour of the SQLite driver) as an explicit environment record `Env`.
Each tool function (`get_word`, `get_server_info`, `explore_database`)
becomes a pure Lean function of that environment; Python exceptions are
modelled with `Except String`, and resource usage (connection open/close,
spaCy invocations, executed queries) is reported in an explicit `Trace`
so that the resource-safety claims can be stated.
-/

/-- One row of the `Entries` table: `SELECT *` returns all columns; the
orchestrator only inspects the `head` column, so the remaining column
values are kept opaque as a list of scalars. -/
structure Entry where
  head : String
  rest : List String
deriving DecidableEq, Repr

/-- The module-level state `get_word` reads:
* `connectErr`: `some e` when `sqlite3.connect(DATABASE_PATH)` raises with
  message `e`, `none` when it succeeds;
* `db`: the rows of the `Entries` table;
* `queryErr`: `some e` when `cursor.execute("SELECT * FROM Entries WHERE
  head = ?", (k,))` raises with message `e` for key `k` (mid-query
  failure), `none` when the query runs;
* `nlp`: the spaCy pipeline, `none` when the model failed to load at
  startup.  When loaded it maps a word to the list of `lemma_` values of
  the tokens of `nlp(word)` (so `doc[0].lemma_` is the head of the list),
  or raises (`Except.error`) if the model invocation fails. -/
structure Env where
  connectErr : Option String
  db : List Entry
  queryErr : String → Option String
  nlp : Option (String → Except String (List String))

/-- `SELECT * FROM Entries WHERE head = ?` with parameter `key`: either the
driver raises, or it returns exactly the rows whose `head` equals `key`
verbatim (case-sensitive, no normalization), in table order. -/
def runQuery (env : Env) (key : String) : Except String (List Entry) :=
  match env.queryErr key with
  | some e => Except.error e
  | none => Except.ok (env.db.filter (fun r => r.head == key))

/-- The `WordSearchResult` pydantic model of `logeion.py`.  The Python
field `lemma` is spelled `lemma_` here because `lemma` is a reserved word
in this Lean environment; `results`, `lemma_` and `error` default to
`none` exactly as the pydantic fields default to `None`. -/
structure WordSearchResult where
  success : Bool
  word : String
  lemma_ : Option String := none
  results : Option (List Entry) := none
  method : String
  error : Option String := none
deriving DecidableEq, Repr

/-- View of a result as the entries sequence of the specification: the
returned rows, an empty sequence when `results` is `None`. -/
def WordSearchResult.entries (r : WordSearchResult) : List Entry :=
  r.results.getD []

/-- Resource/effect trace of one call: how many connections were opened
and closed, how many times the spaCy model was invoked, and the lookup
keys of the executed `head = ?` queries, in order. -/
structure Trace where
  opens : Nat
  closes : Nat
  nlpCalls : Nat
  queries : List String
deriving DecidableEq, Repr

/-- Outcome of the inner `try` block of `get_word` (the part guarded by
`finally: conn.close()`): the result or the pending exception, plus the
spaCy invocations and executed queries. -/
structure InnerOut where
  res : Except String WordSearchResult
  nlpCalls : Nat
  queries : List String

/-- Body of the inner protected block of `get_word` (lines 69–105 of
`logeion.py`): exact-match query, then — only when the exact query
returned no rows and the model is loaded — lemmatization of the word and,
when tokenization produced at least one token, a second query on
`doc[0].lemma_`. -/
def get_word_inner (env : Env) (word : String) : InnerOut :=
  match runQuery env word with
  | Except.error e => { res := Except.error e, nlpCalls := 0, queries := [word] }
  | Except.ok results =>
    if results.isEmpty then
      match env.nlp with
      | none =>
        { res := Except.ok
            { success := false, word := word, method := "none",
              error := some ("No results found for \x27" ++ word ++ "\x27 or its lemma") },
          nlpCalls := 0, queries := [word] }
      | some f =>
        match f word with
        | Except.error e => { res := Except.error e, nlpCalls := 1, queries := [word] }
        | Except.ok [] =>
          { res := Except.ok
              { success := false, word := word, method := "none",
                error := some ("No results found for \x27" ++ word ++ "\x27 or its lemma") },
            nlpCalls := 1, queries := [word] }
        | Except.ok (lem :: _) =>
          match runQuery env lem with
          | Except.error e => { res := Except.error e, nlpCalls := 1, queries := [word, lem] }
          | Except.ok results2 =>
            if results2.isEmpty then
              { res := Except.ok
                  { success := false, word := word, method := "none",
                    error := some ("No results found for \x27" ++ word ++ "\x27 or its lemma") },
                nlpCalls := 1, queries := [word, lem] }
            else
              { res := Except.ok
                  { success := true, word := word, lemma_ := some lem,
                    results := some results2, method := "lemmatized" },
                nlpCalls := 1, queries := [word, lem] }
    else
      { res := Except.ok
          { success := true, word := word, results := some results,
            method := "exact_match" },
        nlpCalls := 0, queries := [word] }

/-- `get_word` (lines 45–117 of `logeion.py`).  If `sqlite3.connect`
raises, no connection exists and the outer `except` produces the error
result.  Otherwise the inner block runs under `finally: conn.close()`, so
the connection is closed on every path, and any exception escaping the
inner block is converted by the outer `except` into the error result. -/
def get_word (env : Env) (word : String) : WordSearchResult × Trace :=
  match env.connectErr with
  | some e =>
    ({ success := false, word := word, method := "error", error := some e },
     { opens := 0, closes := 0, nlpCalls := 0, queries := [] })
  | none =>
    let o := get_word_inner env word
    match o.res with
    | Except.ok r => (r, { opens := 1, closes := 1, nlpCalls := o.nlpCalls, queries := o.queries })
    | Except.error e =>
      ({ success := false, word := word, method := "error", error := some e },
       { opens := 1, closes := 1, nlpCalls := o.nlpCalls, queries := o.queries })

/-- The `ServerInfo` pydantic model (`spacy_status` is what the
specification calls `modelStatus`, and `database_status` its
`databaseStatus`). -/
structure ServerInfo where
  name : String
  version : String
  description : String
  tools_available : List String
  database_status : String
  spacy_status : String
deriving DecidableEq, Repr

/-- `get_server_info` (lines 119–153): a trivial connect/close probe of the
database, the load state of the spaCy model, and static metadata. -/
def get_server_info (env : Env) : ServerInfo :=
  { name := "Logeion MCP Server",
    version := "1.0.0",
    description := "A powerful Latin dictionary MCP server with lemmatization support",
    tools_available := ["get_word", "get_server_info", "explore_database"],
    database_status :=
      match env.connectErr with
      | none => "connected"
      | some e => "error: " ++ e,
    spacy_status :=
      if env.nlp.isSome then ("loaded (la_core_web_lg)") else ("not available") }

/-- A table of the SQLite database as seen by `explore_database`: its
name, column names (what `PRAGMA table_info` / `cursor.description`
report) and rows. -/
structure ExTable where
  name : String
  columns : List String
  rows : List (List String)
deriving DecidableEq, Repr

/-- Environment for `explore_database`: connection failure behaviour and
the tables of the database file. -/
structure ExEnv where
  connectErr : Option String
  tables : List ExTable

/-- Look a table up by name. -/
def findTable (ts : List ExTable) (n : String) : Option ExTable :=
  ts.find? (fun t => t.name == n)

/-- SQLite `LIMIT ?` semantics with a Python `int` parameter: a negative
limit means no limit, otherwise at most `limit` rows are returned. -/
def takeLimit (limit : Int) (rows : List (List String)) : List (List String) :=
  if limit < 0 then rows else rows.take limit.toNat

/-- The dictionary `explore_database` returns; absent keys of the Python
dict are `none`. -/
structure ExploreResult where
  success : Bool
  table : String
  schema : Option (List String) := none
  column_names : Option (List String) := none
  sample_data : Option (List (List String)) := none
  total_rows : Option Nat := none
  error : Option String := none
deriving DecidableEq, Repr

/-- `explore_database` (lines 155–205).  When the interpolated table name
does not name an existing table, `PRAGMA table_info` yields no rows and
the `SELECT * FROM {table} LIMIT ?` raises (`no such table`, or a syntax
error for a malformed interpolation — either way an exception caught by
the outer handler); the model collapses both into the raising branch.
The `finally` closes the connection on every path after a successful
connect. -/
def explore_database (env : ExEnv) (table_name : String) (limit : Int) :
    ExploreResult × Trace :=
  match env.connectErr with
  | some e =>
    ({ success := false, table := table_name, error := some e },
     { opens := 0, closes := 0, nlpCalls := 0, queries := [] })
  | none =>
    match findTable env.tables table_name with
    | none =>
      ({ success := false, table := table_name,
         error := some ("no such table: " ++ table_name) },
       { opens := 1, closes := 1, nlpCalls := 0, queries := [] })
    | some t =>
      let sample := takeLimit limit t.rows
      ({ success := true, table := table_name, schema := some t.columns,
         column_names := some t.columns, sample_data := some sample,
         total_rows := some sample.length },
       { opens := 1, closes := 1, nlpCalls := 0, queries := [] })

/-! Concrete environments used to instantiate the theorems. -/

/-- A dictionary row with head `amare`. -/
def entAmare : Entry :=
  { head := "amare", rest := ["to love"] }

/-- Healthy store containing just the `amare` row; model not loaded. -/
def envAmare : Env :=
  { connectErr := none, db := [entAmare], queryErr := fun _ => none, nlp := none }

/-- Healthy but empty store, model not loaded. -/
def envEmptyNoNlp : Env :=
  { connectErr := none, db := [], queryErr := fun _ => none, nlp := none }

/-- Store whose connection attempt raises. -/
def envConnFail : Env :=
  { connectErr := some ("unable to open database file"), db := [],
    queryErr := fun _ => none, nlp := none }

/-- Healthy store with the `amare` row and a loaded model mapping `amo`
to the single-token lemmatization `amare`. -/
def envAmo : Env :=
  { connectErr := none, db := [entAmare], queryErr := fun _ => none,
    nlp := some (fun wd => if wd == "amo" then Except.ok ["amare"] else Except.ok [wd]) }

/-- Healthy store with a loaded model that tokenizes nothing. -/
def envLoaded : Env :=
  { connectErr := none, db := [entAmare], queryErr := fun _ => none,
    nlp := some (fun _ => Except.ok []) }

/-- Helper: every result of `get_word` has one of four shapes — the
exact-match record, the lemmatized record, the not-found record, or the
caught-exception record, each carrying the input word. -/
theorem get_word_shape (env : Env) (w : String) :
    (∃ rs : List Entry, rs ≠ [] ∧ (get_word env w).1 =
       { success := true, word := w, results := some rs, method := "exact_match" })
    ∨ (∃ (l : String) (rs : List Entry), rs ≠ [] ∧ (get_word env w).1 =
       { success := true, word := w, lemma_ := some l, results := some rs,
         method := "lemmatized" })
    ∨ ((get_word env w).1 =
       { success := false, word := w, method := "none",
         error := some ("No results found for \x27" ++ w ++ "\x27 or its lemma") })
    ∨ (∃ e, (get_word env w).1 =
       { success := false, word := w, method := "error", error := some e }) := by
  cases hc : env.connectErr with
  | some e =>
    refine Or.inr (Or.inr (Or.inr ⟨e, ?_⟩))
    simp [get_word, hc]
  | none =>
    cases hq : env.queryErr w with
    | some e =>
      refine Or.inr (Or.inr (Or.inr ⟨e, ?_⟩))
      simp [get_word, get_word_inner, runQuery, hc, hq]
    | none =>
      cases hfil : env.db.filter (fun r => r.head == w) with
      | cons a as =>
        refine Or.inl ⟨a :: as, by simp, ?_⟩
        simp [get_word, get_word_inner, runQuery, hc, hq, hfil]
      | nil =>
        cases hn : env.nlp with
        | none =>
          refine Or.inr (Or.inr (Or.inl ?_))
          simp [get_word, get_word_inner, runQuery, hc, hq, hfil, hn]
        | some f =>
          cases hf : f w with
          | error e =>
            refine Or.inr (Or.inr (Or.inr ⟨e, ?_⟩))
            simp [get_word, get_word_inner, runQuery, hc, hq, hfil, hn, hf]
          | ok doc =>
            cases doc with
            | nil =>
              refine Or.inr (Or.inr (Or.inl ?_))
              simp [get_word, get_word_inner, runQuery, hc, hq, hfil, hn, hf]
            | cons lem rest2 =>
              cases hq2 : env.queryErr lem with
              | some e =>
                refine Or.inr (Or.inr (Or.inr ⟨e, ?_⟩))
                simp [get_word, get_word_inner, runQuery, hc, hq, hfil, hn, hf, hq2]
              | none =>
                cases hfil2 : env.db.filter (fun r => r.head == lem) with
                | nil =>
                  refine Or.inr (Or.inr (Or.inl ?_))
                  simp [get_word, get_word_inner, runQuery, hc, hq, hfil, hn, hf, hq2, hfil2]
                | cons b bs =>
                  refine Or.inr (Or.inl ⟨lem, b :: bs, by simp, ?_⟩)
                  simp [get_word, get_word_inner, runQuery, hc, hq, hfil, hn, hf, hq2, hfil2]

/-- Claim C1, counterexample: with the store containing a row whose head
is `amare`, the word `amare` matches verbatim, yet the method tag of the
result is the string `exact_match`, not `exact` as the claim states. -/
theorem exact_tag_counterexample :
    envAmare.db.filter (fun r => r.head == "amare") ≠ []
    ∧ (get_word envAmare ("amare")).1.method = "exact_match"
    ∧ (get_word envAmare ("amare")).1.method ≠ "exact" := by
  decide

/-- Claim C1 (amended: the exact-match tag is the string `exact_match`,
not `exact`): for every word matching at least one row verbatim in the
`head` column, `get_word` returns success, the matching rows, no lemma,
method `exact_match`, and never invokes the spaCy model. -/
theorem exact_match_path (env : Env) (w : String) (rs : List Entry)
    (hc : env.connectErr = none) (hq : env.queryErr w = none)
    (hfil : env.db.filter (fun r => r.head == w) = rs) (hne : rs ≠ []) :
    (get_word env w).1 =
      { success := true, word := w, lemma_ := none, results := some rs,
        method := "exact_match", error := none }
    ∧ (get_word env w).1.entries = rs
    ∧ (get_word env w).2.nlpCalls = 0 := by
  cases rs with
  | nil => exact absurd rfl hne
  | cons a as =>
    refine ⟨?_, ?_, ?_⟩ <;>
      simp [get_word, get_word_inner, runQuery, WordSearchResult.entries, hc, hq, hfil]

/-- Claim C1 witness: the amended exact-match theorem instantiated on the
one-row store and the word `amare`. -/
theorem exact_match_path_witness :
    (get_word envAmare ("amare")).1 =
      { success := true, word := "amare", lemma_ := none, results := some [entAmare],
        method := "exact_match", error := none }
    ∧ (get_word envAmare ("amare")).1.entries = [entAmare]
    ∧ (get_word envAmare ("amare")).2.nlpCalls = 0 :=
  exact_match_path envAmare ("amare") [entAmare] rfl rfl (by decide) (by decide)

/-- Claim C2, counterexample: on a miss the code returns method `none`
with a populated error field, refuting the clause that error is present
iff the method is `error`; and on an exact hit success is true while the
method tag is `exact_match`, which is neither `exact` nor `lemmatized`
read literally. -/
theorem result_invariant_counterexample :
    ((get_word envEmptyNoNlp ("xyzzy")).1.error.isSome = true
      ∧ (get_word envEmptyNoNlp ("xyzzy")).1.method ≠ "error")
    ∧ ((get_word envAmare ("amare")).1.success = true
      ∧ (get_word envAmare ("amare")).1.method ≠ "exact"
      ∧ (get_word envAmare ("amare")).1.method ≠ "lemmatized") := by
  decide

/-- Claim C2 (amended: error is present iff the method is `none` or
`error` — equivalently iff success is false — and the exact tag is
`exact_match`): every result of `get_word` satisfies: lemma present iff
method = `lemmatized`; error present iff method ∈ {`none`, `error`};
success true iff method ∈ {`exact_match`, `lemmatized`}. -/
theorem result_invariant (env : Env) (w : String) :
    ((get_word env w).1.lemma_.isSome = true ↔ (get_word env w).1.method = "lemmatized")
    ∧ ((get_word env w).1.error.isSome = true
        ↔ ((get_word env w).1.method = "none" ∨ (get_word env w).1.method = "error"))
    ∧ ((get_word env w).1.success = true
        ↔ ((get_word env w).1.method = "exact_match"
            ∨ (get_word env w).1.method = "lemmatized")) := by
  rcases get_word_shape env w with ⟨rs, _, h⟩ | ⟨l, rs, _, h⟩ | h | ⟨e, h⟩ <;>
    rw [h] <;> refine ⟨?_, ?_, ?_⟩ <;> simp

/-- Claim C9: on every input and every outcome, the `word` field of the
result equals the original input string unchanged. -/
theorem word_field_preserved (env : Env) (w : String) :
    (get_word env w).1.word = w := by
  rcases get_word_shape env w with ⟨rs, _, h⟩ | ⟨l, rs, _, h⟩ | h | ⟨e, h⟩ <;> rw [h]

/-- Claim C6: in both `get_word` and `explore_database`, every connection
that was opened is closed again before the call returns, on every path,
including the paths where the query or the model invocation raises. -/
theorem connection_released (env : Env) (w : String)
    (ex : ExEnv) (nm : String) (lim : Int) :
    (get_word env w).2.closes = (get_word env w).2.opens
    ∧ (explore_database ex nm lim).2.closes = (explore_database ex nm lim).2.opens := by
  constructor
  · cases hc : env.connectErr with
    | some e => simp [get_word, hc]
    | none =>
      cases hres : (get_word_inner env w).res with
      | ok r => simp [get_word, hc, hres]
      | error e => simp [get_word, hc, hres]
  · cases hc : ex.connectErr with
    | some e => simp [explore_database, hc]
    | none =>
      cases ht : findTable ex.tables nm with
      | none => simp [explore_database, hc, ht]
      | some t => simp [explore_database, hc, ht]

/-- Claim C3: every exception raised during the lookup — at connect time,
during either query, or during the model invocation — is caught and
converted into a result with method `error`, success false, empty
entries, and the message of the exception; since `get_word` is a total
function into `WordSearchResult`, no exception reaches the caller. -/
theorem error_conversion (env : Env) (w : String) :
    (∀ e, env.connectErr = some e → (get_word env w).1 =
      { success := false, word := w, lemma_ := none, results := none,
        method := "error", error := some e }
      ∧ (get_word env w).1.entries = [])
    ∧ (∀ e, env.connectErr = none → env.queryErr w = some e → (get_word env w).1 =
      { success := false, word := w, lemma_ := none, results := none,
        method := "error", error := some e }
      ∧ (get_word env w).1.entries = [])
    ∧ (∀ e f, env.connectErr = none → env.queryErr w = none →
        env.db.filter (fun r => r.head == w) = [] → env.nlp = some f →
        f w = Except.error e → (get_word env w).1 =
      { success := false, word := w, lemma_ := none, results := none,
        method := "error", error := some e }
      ∧ (get_word env w).1.entries = [])
    ∧ (∀ e f lem doc2, env.connectErr = none → env.queryErr w = none →
        env.db.filter (fun r => r.head == w) = [] → env.nlp = some f →
        f w = Except.ok (lem :: doc2) → env.queryErr lem = some e → (get_word env w).1 =
      { success := false, word := w, lemma_ := none, results := none,
        method := "error", error := some e }
      ∧ (get_word env w).1.entries = []) := by
  refine ⟨?_, ?_, ?_, ?_⟩
  · intro e hc
    constructor <;> simp [get_word, WordSearchResult.entries, hc]
  · intro e hc hq
    constructor <;>
      simp [get_word, get_word_inner, runQuery, WordSearchResult.entries, hc, hq]
  · intro e f hc hq hfil hn hf
    constructor <;>
      simp [get_word, get_word_inner, runQuery, WordSearchResult.entries, hc, hq, hfil, hn, hf]
  · intro e f lem doc2 hc hq hfil hn hf hq2
    constructor <;>
      simp [get_word, get_word_inner, runQuery, WordSearchResult.entries,
        hc, hq, hfil, hn, hf, hq2]

/-- Claim C3 witness: the error-conversion theorem instantiated on a
store whose connection attempt raises. -/
theorem error_conversion_witness :
    (get_word envConnFail ("test")).1 =
      { success := false, word := "test", lemma_ := none, results := none,
        method := "error", error := some ("unable to open database file") }
    ∧ (get_word envConnFail ("test")).1.entries = [] :=
  (error_conversion envConnFail ("test")).1 ("unable to open database file") rfl

/-- Helper for the second half of claim C4: a second query is issued only
when the model is loaded and tokenization of the input produced at least
one token, and then its key is the lemma of the first token. -/
theorem second_query_only_after_lemma (env : Env) (w : String)
    (h : 2 ≤ (get_word env w).2.queries.length) :
    ∃ f l ls, env.nlp = some f ∧ f w = Except.ok (l :: ls)
      ∧ (get_word env w).2.queries = [w, l] := by
  cases hc : env.connectErr with
  | some e => simp [get_word, hc] at h
  | none =>
    cases hq : env.queryErr w with
    | some e => simp [get_word, get_word_inner, runQuery, hc, hq] at h
    | none =>
      cases hfil : env.db.filter (fun r => r.head == w) with
      | cons a as => simp [get_word, get_word_inner, runQuery, hc, hq, hfil] at h
      | nil =>
        cases hn : env.nlp with
        | none => simp [get_word, get_word_inner, runQuery, hc, hq, hfil, hn] at h
        | some f =>
          cases hf : f w with
          | error e => simp [get_word, get_word_inner, runQuery, hc, hq, hfil, hn, hf] at h
          | ok doc =>
            cases doc with
            | nil => simp [get_word, get_word_inner, runQuery, hc, hq, hfil, hn, hf] at h
            | cons lem rest2 =>
              refine ⟨f, lem, rest2, rfl, hf, ?_⟩
              cases hq2 : env.queryErr lem with
              | some e => simp [get_word, get_word_inner, runQuery, hc, hq, hfil, hn, hf, hq2]
              | none =>
                cases hfil2 : env.db.filter (fun r => r.head == lem) with
                | nil =>
                  simp [get_word, get_word_inner, runQuery, hc, hq, hfil, hn, hf, hq2, hfil2]
                | cons b bs =>
                  simp [get_word, get_word_inner, runQuery, hc, hq, hfil, hn, hf, hq2, hfil2]

/-- Claim C4: for a word absent verbatim, when the model is loaded and
lemmatizes it to a lemma present as a lookup key, `get_word` returns
method `lemmatized`, success true, the computed lemma, and the non-empty
rows matching the lemma; moreover (in any environment) a second query is
attempted only when the model produced a non-empty tokenization, and then
only on the resulting lemma. -/
theorem lemmatized_path (env : Env) (w : String)
    (f : String → Except String (List String)) (lem : String) (doc2 : List String)
    (rs : List Entry)
    (hc : env.connectErr = none) (hq : env.queryErr w = none)
    (hmiss : env.db.filter (fun r => r.head == w) = [])
    (hn : env.nlp = some f) (hf : f w = Except.ok (lem :: doc2))
    (hq2 : env.queryErr lem = none)
    (hfil2 : env.db.filter (fun r => r.head == lem) = rs) (hne : rs ≠ []) :
    ((get_word env w).1 =
      { success := true, word := w, lemma_ := some lem, results := some rs,
        method := "lemmatized", error := none }
    ∧ (get_word env w).1.entries = rs)
    ∧ (∀ (env9 : Env) (w9 : String), 2 ≤ (get_word env9 w9).2.queries.length →
        ∃ f9 l9 ls9, env9.nlp = some f9 ∧ f9 w9 = Except.ok (l9 :: ls9)
          ∧ (get_word env9 w9).2.queries = [w9, l9]) := by
  refine ⟨?_, fun env9 w9 h9 => second_query_only_after_lemma env9 w9 h9⟩
  cases rs with
  | nil => exact absurd rfl hne
  | cons b bs =>
    constructor <;>
      simp [get_word, get_word_inner, runQuery, WordSearchResult.entries,
        hc, hq, hmiss, hn, hf, hq2, hfil2]

/-- Claim C4 witness: the lemmatized-path theorem instantiated on the
store holding only the `amare` row and a model mapping `amo` to
`amare`. -/
theorem lemmatized_path_witness :
    (get_word envAmo ("amo")).1 =
      { success := true, word := "amo", lemma_ := some "amare", results := some [entAmare],
        method := "lemmatized", error := none }
    ∧ (get_word envAmo ("amo")).1.entries = [entAmare] :=
  (lemmatized_path envAmo ("amo")
    (fun wd => if wd == "amo" then Except.ok ["amare"] else Except.ok [wd])
    ("amare") [] [entAmare] rfl rfl (by decide) rfl rfl rfl (by decide) (by simp)).1

/-- Claim C5: for a word absent verbatim whose lemma is also absent (no
model, empty tokenization, or lemma not a lookup key), `get_word` returns
method `none`, success false, empty entries, and the not-found message
naming the word. -/
theorem none_path (env : Env) (w : String)
    (hc : env.connectErr = none) (hq : env.queryErr w = none)
    (hmiss : env.db.filter (fun r => r.head == w) = [])
    (hlem : env.nlp = none
      ∨ ∃ f, env.nlp = some f ∧ (f w = Except.ok []
        ∨ ∃ l ls, f w = Except.ok (l :: ls) ∧ env.queryErr l = none
            ∧ env.db.filter (fun r => r.head == l) = [])) :
    (get_word env w).1 =
      { success := false, word := w, lemma_ := none, results := none, method := "none",
        error := some ("No results found for \x27" ++ w ++ "\x27 or its lemma") }
    ∧ (get_word env w).1.entries = [] := by
  rcases hlem with hn | ⟨f, hn, hf | ⟨l, ls, hf, hq2, hfil2⟩⟩
  · constructor <;>
      simp [get_word, get_word_inner, runQuery, WordSearchResult.entries, hc, hq, hmiss, hn]
  · constructor <;>
      simp [get_word, get_word_inner, runQuery, WordSearchResult.entries, hc, hq, hmiss, hn, hf]
  · constructor <;>
      simp [get_word, get_word_inner, runQuery, WordSearchResult.entries,
        hc, hq, hmiss, hn, hf, hq2, hfil2]

/-- Claim C5 witness: the none-path theorem instantiated on the empty
store without a model, at the word `xyzzy`; the error message computes to
the literal of the specification scenario. -/
theorem none_path_witness :
    (get_word envEmptyNoNlp ("xyzzy")).1 =
      { success := false, word := "xyzzy", lemma_ := none, results := none, method := "none",
        error := some ("No results found for \x27xyzzy\x27 or its lemma") }
    ∧ (get_word envEmptyNoNlp ("xyzzy")).1.entries = [] := by
  have h := none_path envEmptyNoNlp ("xyzzy") rfl rfl rfl (Or.inl rfl)
  refine ⟨?_, h.2⟩
  rw [h.1]
  decide

/-- Claim C7, counterexample: with the model loaded, the reported model
status is the string `loaded (la_core_web_lg)`, not exactly `loaded` as
the claim states. -/
theorem model_status_counterexample :
    envLoaded.nlp.isSome = true
    ∧ (get_server_info envLoaded).spacy_status = "loaded (la_core_web_lg)"
    ∧ (get_server_info envLoaded).spacy_status ≠ "loaded" := by
  decide

/-- Claim C7 (amended: the loaded-model status string is
`loaded (la_core_web_lg)`, not exactly `loaded`): the database status is
`connected` exactly when the connect/close probe succeeds and
`error: <message>` otherwise, the model status is
`loaded (la_core_web_lg)` when the model was loaded and `not available`
otherwise, and the tool list is exactly the three tools in order. -/
theorem server_info_fields (env : Env) :
    (env.connectErr = none → (get_server_info env).database_status = "connected")
    ∧ (∀ e, env.connectErr = some e →
        (get_server_info env).database_status = "error: " ++ e)
    ∧ (env.nlp.isSome = true →
        (get_server_info env).spacy_status = "loaded (la_core_web_lg)")
    ∧ (env.nlp = none → (get_server_info env).spacy_status = "not available")
    ∧ (get_server_info env).tools_available
        = ["get_word", "get_server_info", "explore_database"] := by
  refine ⟨?_, ?_, ?_, ?_, ?_⟩
  · intro hc
    simp [get_server_info, hc]
  · intro e hc
    simp [get_server_info, hc]
  · intro hn
    simp [get_server_info, hn]
  · intro hn
    simp [get_server_info, hn]
  · rfl

/-- Claim C7 witness: the server-info theorem instantiated on a reachable
store with a loaded model. -/
theorem server_info_fields_witness :
    (get_server_info envLoaded).database_status = "connected"
    ∧ (get_server_info envLoaded).spacy_status = "loaded (la_core_web_lg)"
    ∧ (get_server_info envLoaded).tools_available
        = ["get_word", "get_server_info", "explore_database"] :=
  ⟨(server_info_fields envLoaded).1 rfl,
   (server_info_fields envLoaded).2.2.1 rfl,
   (server_info_fields envLoaded).2.2.2.2⟩

/-- Claim C8: `get_word` is deterministic — two calls against the same
store state (connection behaviour, table rows, query failure behaviour)
and the same resolver state return identical results, traces included. -/
theorem get_word_deterministic (e1 e2 : Env) (w : String)
    (h1 : e1.connectErr = e2.connectErr) (h2 : e1.db = e2.db)
    (h3 : e1.queryErr = e2.queryErr) (h4 : e1.nlp = e2.nlp) :
    get_word e1 w = get_word e2 w := by
  have h : e1 = e2 := by
    cases e1
    cases e2
    simp_all
  rw [h]

/-- Distinct but identical environment, for the determinism witness. -/
def envAmareBis : Env :=
  { connectErr := none, db := [entAmare], queryErr := fun _ => none, nlp := none }

/-- Claim C8 witness: the determinism theorem instantiated on two
separately constructed but equal environments. -/
theorem get_word_deterministic_witness :
    get_word envAmare ("amare") = get_word envAmareBis ("amare") :=
  get_word_deterministic envAmare envAmareBis ("amare") rfl rfl rfl rfl

/-- A three-row `Entries` table, for the introspection witness. -/
def exTab : ExTable :=
  { name := "Entries", columns := ["id", "head", "definition"],
    rows := [["1", "amare", "to love"], ["2", "puer", "boy"], ["3", "amicus", "friend"]] }

/-- Reachable database holding just `exTab`. -/
def exEnv1 : ExEnv :=
  { connectErr := none, tables := [exTab] }

/-- Claim C10: on success, `total_rows` equals the length of the returned
`sample_data` (the rows of the table truncated to the limit — at most
`limit` rows whenever the limit is non-negative), not the number of rows
in the table. -/
theorem explore_total_rows (env : ExEnv) (nm : String) (lim : Int) (t : ExTable)
    (hc : env.connectErr = none) (ht : findTable env.tables nm = some t) :
    (explore_database env nm lim).1.success = true
    ∧ (explore_database env nm lim).1.sample_data = some (takeLimit lim t.rows)
    ∧ (explore_database env nm lim).1.total_rows = some (takeLimit lim t.rows).length
    ∧ (0 ≤ lim → ((takeLimit lim t.rows).length : Int) ≤ lim) := by
  refine ⟨?_, ?_, ?_, ?_⟩
  · simp [explore_database, hc, ht]
  · simp [explore_database, hc, ht]
  · simp [explore_database, hc, ht]
  · intro hl
    rw [takeLimit, if_neg (not_lt.2 hl)]
    calc ((t.rows.take lim.toNat).length : Int)
        ≤ (lim.toNat : Int) := by exact_mod_cast List.length_take_le lim.toNat t.rows
      _ = lim := Int.toNat_of_nonneg hl

/-- Claim C10 witness: the table has three rows but with limit 2 the
sample has two rows and `total_rows` reports 2, not 3. -/
theorem explore_total_rows_witness :
    (explore_database exEnv1 ("Entries") 2).1.total_rows
        = some (takeLimit 2 exTab.rows).length
    ∧ (takeLimit 2 exTab.rows).length = 2
    ∧ exTab.rows.length = 3
    ∧ ((takeLimit 2 exTab.rows).length : Int) ≤ 2 :=
  ⟨(explore_total_rows exEnv1 ("Entries") 2 exTab rfl rfl).2.2.1,
   by decide, by decide,
   (explore_total_rows exEnv1 ("Entries") 2 exTab rfl rfl).2.2.2 (by decide)⟩
